import Mathlib

/-!
Shallow embedding of the MoodMate backend entry ingestion and retrieval
pipeline (src/backend/src/controllers/aiController.js,
src/backend/src/controllers/entryController.js and
src/backend/src/models/JournalEntry.js), together with theorems checking
the specification claims against it.

Modelling conventions:
* JavaScript strings are Lean `String`; `toLowerCase` is modelled by
  mapping `Char.toLower` (the keyword sets and the claims are ASCII).
* The external model call is an explicit `Except` parameter: `.error`
  covers every failure the `catch` blocks absorb (transport, timeout,
  non-JSON, `JSON.parse` exceptions); `.ok` carries the fields of the
  parsed JSON object that the code reads.
* The result of the JavaScript coercion `Number(data.moodScore)` is a
  double: a finite value, `NaN` or an infinity; it is embedded as `JNum`
  with finite values as rationals.
* The persistent store is a list of entries passed in and returned.
* HTTP responses are modelled as a status code plus the relevant body.
-/

/-- Result of the JavaScript expression `Number(data.moodScore)`:
a finite double (as a rational), `NaN`, or an infinity. -/
inductive JNum : Type where
  | val (q : ℚ)
  | nan
  | inf
  | ninf
deriving DecidableEq

/-- The `{ moodScore, tags }` object produced by the annotation paths. -/
structure Analysis : Type where
  moodScore : ℚ
  tags : List String
deriving DecidableEq

/-- Fields of the parsed JSON object returned by the external model that
the code reads: the coerced `moodScore` and `tags` (`some l` when
`Array.isArray(data.tags)` holds, `none` otherwise). -/
structure ModelResp : Type where
  moodScore : JNum
  tags : Option (List String)
deriving DecidableEq

/-- Outcome of one external-model round trip as observed by the `try`
block: `.error` for any thrown failure, `.ok` for a parsed response. -/
abbrev ModelOutcome : Type := Except Unit ModelResp

/-- JavaScript `Math.min` on (finite) numbers. -/
def jsMin (a b : ℚ) : ℚ := if a ≤ b then a else b

/-- JavaScript `Math.max` on (finite) numbers. -/
def jsMax (a b : ℚ) : ℚ := if a ≤ b then b else a

/-- `needle` occurs as a contiguous substring of `hay`
(JavaScript `hay.includes(needle)` on the character lists). -/
def containsSubL (needle : List Char) : List Char → Bool
  | [] => needle.isEmpty
  | c :: rest => needle.isPrefixOf (c :: rest) || containsSubL needle rest

/-- JavaScript `text.toLowerCase()` (ASCII model). -/
def jsToLower (s : String) : String := ⟨s.data.map Char.toLower⟩

/-- JavaScript `s.includes(sub)`. -/
def jsIncludes (s sub : String) : Bool := containsSubL sub.data s.data

/-- `fallbackAnalyze` from src/backend/src/controllers/aiController.js:
keyword-counting heuristic used when the standalone analyze endpoint's
model call fails. -/
def fallbackAnalyze (text : String) : Analysis :=
  let lowerText := jsToLower text
  let positive := (["happy", "good", "great", "love", "excited"].filter
    (fun w => jsIncludes lowerText w)).length
  let negative := (["sad", "bad", "hate", "tired", "angry"].filter
    (fun w => jsIncludes lowerText w)).length
  let score : ℚ := 5 + positive - negative
  { moodScore := jsMax 1 (jsMin 10 score), tags := ["offline-analysis"] }

/-- `Math.max(1, Math.min(10, Number(data.moodScore) || 5))`.
`NaN` and `0` are falsy, so `|| 5` replaces them before clamping;
`Math.min(10, +inf) = 10` and `Math.max(1, -inf) = 1`. -/
def coerceMoodNum : JNum → ℚ
  | .val q => jsMax 1 (jsMin 10 (if q = 0 then 5 else q))
  | .nan => jsMax 1 (jsMin 10 5)
  | .inf => 10
  | .ninf => 1

/-- `Array.isArray(data.tags) ? data.tags.slice(0, 5) : ['general']`. -/
def coerceTags : Option (List String) → List String
  | some l => l.take 5
  | none => ["general"]

/-- Integrality witness for a parsed model number: either it is not a
finite value (so the default `5` is used) or it is an integer. -/
def JNum.intLike : JNum → Bool
  | .val q => q.den == 1
  | _ => true

/-- The annotation computed inside `analyzeEntry`
(src/backend/src/controllers/aiController.js): coerce the parsed model
response, falling back to `fallbackAnalyze text` when the call throws. -/
def aiAnalysisResult (text : String) : ModelOutcome → Analysis
  | .error _ => fallbackAnalyze text
  | .ok r => { moodScore := coerceMoodNum r.moodScore, tags := coerceTags r.tags }

/-- The `analyzeEntry` handler: `400` when `text` is falsy, otherwise a
`200` response whose body is the annotation. -/
def analyzeEntry (text : String) (o : ModelOutcome) : Nat × Option Analysis :=
  if text = "" then (400, none) else (200, some (aiAnalysisResult text o))

/-- `getAiAnalysis` from src/backend/src/controllers/entryController.js:
the same coercion on success, but its own constant fallback
`{ moodScore: 5, tags: ['offline'] }` when the call throws. -/
def getAiAnalysis : ModelOutcome → Analysis
  | .error _ => { moodScore := 5, tags := ["offline"] }
  | .ok r => { moodScore := coerceMoodNum r.moodScore, tags := coerceTags r.tags }

/-- A persisted journal entry (src/backend/src/models/JournalEntry.js). -/
structure Entry : Type where
  id : Nat
  userId : Nat
  text : String
  moodScore : ℚ
  tags : List String
  createdAt : Int
deriving DecidableEq

/-- The `semanticSearch` handler: `400` when `query` is falsy or
`entries` is absent; otherwise the parsed id array on success and an
empty array (status `200`) when the model call or parse throws. -/
def semanticSearch (query : String) (entries : Option (List Entry)) :
    Except Unit (List String) → Nat × Option (List String) :=
  fun o =>
    match entries with
    | none => (400, none)
    | some _ =>
      if query = "" then (400, none)
      else
        match o with
        | .error _ => (200, some [])
        | .ok ids => (200, some ids)

/-- Body of the `201` (or `400`) response of `createEntry`. -/
structure CreateResponse : Type where
  status : Nat
  body : Option Entry
deriving DecidableEq

/-- The `createEntry` handler: reject falsy `text` with `400` before any
annotation or persistence; otherwise annotate via `getAiAnalysis`,
persist the new entry (`newId` and `now` stand for the id and timestamp
the store assigns) and answer `201` with the stored record. -/
def createEntry (uid : Nat) (text : String) (o : ModelOutcome)
    (db : List Entry) (newId : Nat) (now : Int) : CreateResponse × List Entry :=
  if text = "" then ({ status := 400, body := none }, db)
  else
    let analysis := getAiAnalysis o
    let e : Entry :=
      { id := newId, userId := uid, text := text,
        moodScore := analysis.moodScore, tags := analysis.tags, createdAt := now }
    ({ status := 201, body := some e }, db ++ [e])

/-- `JournalEntry.findById` on the modelled store. -/
def findById (id : Nat) (db : List Entry) : Option Entry :=
  db.find? (fun e => e.id == id)

/-- Update request body: `text = ""` models a missing or empty (falsy)
text; `tags = none` models a missing or null tags value, `some l` a
provided array (possibly empty); `createdAt = none` a falsy value. -/
structure UpdateBody : Type where
  text : String := ""
  tags : Option (List String) := none
  createdAt : Option Int := none

/-- The field assignments of `updateEntry`:
`entry.text = text || entry.text`, `entry.tags = tags || entry.tags`,
`if (createdAt) entry.createdAt = createdAt`. An empty string is falsy,
but a provided array — even an empty one — is truthy. -/
def applyUpdate (e : Entry) (b : UpdateBody) : Entry :=
  { e with
    text := if b.text = "" then e.text else b.text
    tags := match b.tags with
      | some ts => ts
      | none => e.tags
    createdAt := match b.createdAt with
      | some c => c
      | none => e.createdAt }

/-- The `updateEntry` handler: `404` when no entry has the id, `401`
when the caller is not the owner, otherwise save the updated record. -/
def updateEntry (id caller : Nat) (b : UpdateBody) (db : List Entry) :
    Nat × List Entry :=
  match findById id db with
  | none => (404, db)
  | some e =>
    if e.userId ≠ caller then (401, db)
    else (200, db.map (fun x => if x.id == id then applyUpdate x b else x))

/-- The `deleteEntry` handler: same lookup and ownership check as
`updateEntry`, then remove the record. -/
def deleteEntry (id caller : Nat) (db : List Entry) : Nat × List Entry :=
  match findById id db with
  | none => (404, db)
  | some e =>
    if e.userId ≠ caller then (401, db)
    else (200, db.filter (fun x => !(x.id == id)))

/-!
The keyword filter of `getEntries` hands the raw search term to MongoDB
as `$regex: search, $options: 'i'`, so the term is interpreted as a
case-insensitive regular expression, not as a literal substring. The
fragment below embeds exactly the regex constructs the claims exercise:
literal characters and the metacharacter `.` (match any character).
Terms using any other PCRE metacharacter fall outside the fragment and
compile to `none`; theorems about the filter are stated on the fragment.
-/

/-- One compiled regex token of the embedded fragment. -/
inductive RTok : Type where
  | dot
  | lit (c : Char)
deriving DecidableEq

/-- PCRE metacharacters (special outside character classes). -/
def isRegexMeta (c : Char) : Bool :=
  c ∈ ['\\', '^', '$', '.', '|', '?', '*', '+', '(', ')', '[', ']', '\x7b', '\x7d']

/-- Compile a term to the fragment: `.` becomes the any-character token,
other metacharacters are out of the fragment, the rest are literals. -/
def compileRegex : List Char → Option (List RTok)
  | [] => some []
  | c :: t =>
    if c = '.' then (compileRegex t).map (fun p => RTok.dot :: p)
    else if isRegexMeta c then none
    else (compileRegex t).map (fun p => RTok.lit c :: p)

/-- One token against one character, case-insensitively (`$options: 'i'`,
ASCII model). -/
def rtokMatch : RTok → Char → Bool
  | .dot, _ => true
  | .lit c, d => c.toLower == d.toLower

/-- The pattern matches some prefix of `s` (here: the whole pattern is
consumed against the leading characters of `s`). -/
def regexAccept : List RTok → List Char → Bool
  | [], _ => true
  | _ :: _, [] => false
  | t :: p, c :: s => rtokMatch t c && regexAccept p s

/-- Unanchored regex search: the pattern matches at some position. -/
def regexSearch (p : List RTok) : List Char → Bool
  | [] => regexAccept p []
  | c :: s => regexAccept p (c :: s) || regexSearch p s

/-- The `$or` keyword filter of `getEntries`: the term, as a
case-insensitive regex, matches the entry text or some tag. `none` when
the term is outside the embedded regex fragment. -/
def searchMatchesE (term : String) (e : Entry) : Option Bool :=
  (compileRegex term.data).map
    (fun p => regexSearch p e.text.data || e.tags.any (fun t => regexSearch p t.data))

/-- Query parameters of `GET /entries` with the code's defaults; a
missing `mood` or `search` is the falsy empty string. -/
structure QueryParams : Type where
  page : Nat := 1
  limit : Nat := 8
  startDate : Option Int := none
  endDate : Option Int := none
  mood : String := ""
  search : String := ""
  sortBy : String := "latest"

/-- `end.setHours(23, 59, 59, 999)` on an epoch-millisecond timestamp
(server clock taken as UTC): last millisecond of the timestamp's day. -/
def endOfDay (d : Int) : Int := d - d % 86400000 + 86399999

/-- The `createdAt` range filter of `getEntries`. -/
def dateMatches (p : QueryParams) (e : Entry) : Bool :=
  (match p.startDate with
    | none => true
    | some s => decide (s ≤ e.createdAt)) &&
  (match p.endDate with
    | none => true
    | some d => decide (e.createdAt ≤ endOfDay d))

/-- The mood-bucket filter of `getEntries`: no constraint when `mood` is
falsy, `'all'`, or an unknown bucket name. -/
def moodMatches (mood : String) (e : Entry) : Bool :=
  if mood = "" || mood = "all" then true
  else if mood = "happy" then decide (7 ≤ e.moodScore)
  else if mood = "neutral" then decide (5 ≤ e.moodScore ∧ e.moodScore < 7)
  else if mood = "sad" then decide (e.moodScore < 5)
  else true

/-- The conjunction of all `getEntries` filters on one entry, scoped to
the caller id; `none` only when the search term leaves the regex
fragment. -/
def entryMatches (uid : Nat) (p : QueryParams) (e : Entry) : Option Bool :=
  let base := (e.userId == uid) && dateMatches p e && moodMatches p.mood e
  if p.search = "" then some base
  else (searchMatchesE p.search e).map (fun s => base && s)

/-- Filter a list by an `Option Bool` predicate, propagating `none`. -/
def filterOpt (f : α → Option Bool) : List α → Option (List α)
  | [] => some []
  | a :: l => do
    let b ← f a
    let r ← filterOpt f l
    pure (if b then a :: r else r)

/-- Boolean comparator realising the MongoDB sort specification built by
`getEntries`: `oldest` is createdAt ascending, `highest` moodScore
descending, `lowest` moodScore ascending, anything else (the default
`latest`) createdAt descending. -/
def sortLe (s : String) (a b : Entry) : Bool :=
  if s = "oldest" then decide (a.createdAt ≤ b.createdAt)
  else if s = "highest" then decide (b.moodScore ≤ a.moodScore)
  else if s = "lowest" then decide (a.moodScore ≤ b.moodScore)
  else decide (b.createdAt ≤ a.createdAt)

/-- The store's sort step (`.sort(sortOptions)`), realised as a sort
with respect to `sortLe`. -/
def applySort (s : String) (l : List Entry) : List Entry :=
  l.insertionSort (fun a b => sortLe s a b = true)

/-- `Math.ceil(total / limit)` on naturals (for positive `limit`). -/
def ceilDiv (a b : Nat) : Nat := (a + b - 1) / b

/-- Body of the `getEntries` response. -/
structure PageData : Type where
  entries : List Entry
  total : Nat
  pages : Nat
  page : Nat
  limit : Nat
deriving DecidableEq

/-- The `getEntries` handler: filter the caller's entries, sort, then
paginate with `skip((page - 1) * limit).limit(limit)`; report the total
matching count and `Math.ceil(total / limit)` pages. -/
def getEntries (uid : Nat) (p : QueryParams) (db : List Entry) : Option PageData :=
  (filterOpt (entryMatches uid p) db).map
    (fun matched =>
      let sorted := applySort p.sortBy matched
      { entries := (sorted.drop ((p.page - 1) * p.limit)).take p.limit
        total := matched.length
        pages := ceilDiv matched.length p.limit
        page := p.page
        limit := p.limit })

/-!  Specification-side definitions, written from the words of the spec
for the refinement claims; each is compared with the code-side
definition above by a theorem. -/

/-- Case-insensitive substring containment — the relation the spec uses
for the keyword filter ("contains the term (case-insensitive)"). -/
def ciContainsStr (term s : String) : Bool :=
  containsSubL (term.data.map Char.toLower) (s.data.map Char.toLower)

/-- Modelled from the spec (section 4.1 fallback algorithm): lower-case
the text, count the fixed positive and negative words by substring
containment, score `5 + positiveCount - negativeCount` clamped to
`[1, 10]`, sentinel tag list. -/
def specFallbackAnalyze (text : String) : Analysis :=
  let low := (jsToLower text).data
  let p := (["happy", "good", "great", "love", "excited"].countP
    (fun w => containsSubL w.data low))
  let n := (["sad", "bad", "hate", "tired", "angry"].countP
    (fun w => containsSubL w.data low))
  { moodScore := jsMax 1 (jsMin 10 (5 + (p : ℚ) - (n : ℚ))),
    tags := ["offline-analysis"] }

/-!  Concrete values used by scenario theorems, counterexamples and
witnesses. -/

/-- The text of the end-to-end fallback scenario. -/
def greatText : String := "I had a great day with friends"

/-- The rational `7.5`, a possible parsed `moodScore` value. -/
def sevenHalf : ℚ := ⟨15, 2, by decide, by norm_num [Nat.Coprime]⟩

/-- A store of 21 entries of user 1 (pagination scenario). -/
def db21 : List Entry :=
  (List.range 21).map (fun i =>
    { id := i, userId := 1, text := "t", moodScore := 5, tags := [],
      createdAt := (i : Int) })

/-- An entry of user 1 with text `abc` (regex counterexample). -/
def eAbc : Entry :=
  { id := 0, userId := 1, text := "abc", moodScore := 5, tags := [], createdAt := 0 }

/-- An entry of user 1 with one tag (update counterexample). -/
def eTagA : Entry :=
  { id := 0, userId := 1, text := "hello", moodScore := 5, tags := ["a"], createdAt := 0 }

/-- An entry owned by user 2 (ownership witnesses). -/
def eOwner2 : Entry :=
  { id := 7, userId := 2, text := "mine", moodScore := 5, tags := [], createdAt := 0 }

/-- A two-entry store of user 1 with increasing timestamps (sorting
witness). -/
def dbTwo : List Entry :=
  [{ id := 0, userId := 1, text := "a", moodScore := 3, tags := [], createdAt := 0 },
   { id := 1, userId := 1, text := "b", moodScore := 9, tags := [], createdAt := 1 }]

/-- The page `getEntries` answers for user 1, default parameters, on
`dbTwo`. -/
def pdTwo : PageData :=
  { entries :=
      [{ id := 1, userId := 1, text := "b", moodScore := 9, tags := [], createdAt := 1 },
       { id := 0, userId := 1, text := "a", moodScore := 3, tags := [], createdAt := 0 }],
    total := 2, pages := 1, page := 1, limit := 8 }

/-- The page `getEntries` answers for user 1, default parameters, on the
empty store. -/
def pdEmpty : PageData :=
  { entries := [], total := 0, pages := 0, page := 1, limit := 8 }

/-!  Helper lemmas. -/

theorem le_jsMax_left (a b : ℚ) : a ≤ jsMax a b := by
  unfold jsMax
  split
  · assumption
  · exact le_refl a

theorem jsMax_le {a b c : ℚ} (h1 : a ≤ c) (h2 : b ≤ c) : jsMax a b ≤ c := by
  unfold jsMax
  split <;> assumption

theorem jsMin_le_left (a b : ℚ) : jsMin a b ≤ a := by
  unfold jsMin
  split
  · exact le_refl a
  · exact le_of_not_le (by assumption)

/-- The clamp `Math.max(1, Math.min(10, x))` lands in `[1, 10]`. -/
theorem clamp_range (x : ℚ) : 1 ≤ jsMax 1 (jsMin 10 x) ∧ jsMax 1 (jsMin 10 x) ≤ 10 :=
  ⟨le_jsMax_left 1 _, jsMax_le (by norm_num) (jsMin_le_left 10 x)⟩

/-- The clamp preserves integrality of its argument. -/
theorem clamp_den (x : ℚ) (h : x.den = 1) : (jsMax 1 (jsMin 10 x)).den = 1 := by
  unfold jsMax jsMin
  split <;> split <;> first | exact h | norm_num

/-- The fallback score `5 + positive - negative` is an integer. -/
theorem natSub_den (p n : Nat) : ((5 : ℚ) + (p : ℚ) - (n : ℚ)).den = 1 := by
  have h : (5 : ℚ) + (p : ℚ) - (n : ℚ) = (((5 + (p : ℤ) - (n : ℤ)) : ℤ) : ℚ) := by
    push_cast
    ring
  rw [h]
  exact Rat.den_intCast _

theorem fallbackAnalyze_moodScore (text : String) :
    (fallbackAnalyze text).moodScore =
      jsMax 1 (jsMin 10 (5 +
        ((["happy", "good", "great", "love", "excited"].filter
          (fun w => jsIncludes (jsToLower text) w)).length : ℚ) -
        ((["sad", "bad", "hate", "tired", "angry"].filter
          (fun w => jsIncludes (jsToLower text) w)).length : ℚ))) := rfl

theorem fallbackAnalyze_range (text : String) :
    1 ≤ (fallbackAnalyze text).moodScore ∧ (fallbackAnalyze text).moodScore ≤ 10 := by
  rw [fallbackAnalyze_moodScore]
  exact clamp_range _

theorem fallbackAnalyze_den (text : String) : (fallbackAnalyze text).moodScore.den = 1 := by
  rw [fallbackAnalyze_moodScore]
  exact clamp_den _ (natSub_den _ _)

theorem coerceMoodNum_range (j : JNum) :
    1 ≤ coerceMoodNum j ∧ coerceMoodNum j ≤ 10 := by
  cases j with
  | val q => exact clamp_range _
  | nan => exact clamp_range _
  | inf => exact ⟨by norm_num [coerceMoodNum], by norm_num [coerceMoodNum]⟩
  | ninf => exact ⟨by norm_num [coerceMoodNum], by norm_num [coerceMoodNum]⟩

theorem coerceMoodNum_den (j : JNum) (h : j.intLike = true) : (coerceMoodNum j).den = 1 := by
  cases j with
  | val q =>
    have hq : q.den = 1 := by
      simpa [JNum.intLike] using h
    show (jsMax 1 (jsMin 10 (if q = 0 then 5 else q))).den = 1
    rcases eq_or_ne q 0 with rfl | hne
    · rw [if_pos rfl]
      exact clamp_den _ (by norm_num)
    · rw [if_neg hne]
      exact clamp_den _ hq
  | nan => exact clamp_den _ (by norm_num)
  | inf => norm_num [coerceMoodNum]
  | ninf => norm_num [coerceMoodNum]

/-- Evaluation of the keyword fallback on the scenario text: one
positive word (`great`), no negative word, score `6`. -/
theorem fallbackAnalyze_greatText :
    fallbackAnalyze greatText = { moodScore := 6, tags := ["offline-analysis"] } := by
  have hp : (["happy", "good", "great", "love", "excited"].filter
      (fun w => jsIncludes (jsToLower greatText) w)) = ["great"] := by decide
  have hn : (["sad", "bad", "hate", "tired", "angry"].filter
      (fun w => jsIncludes (jsToLower greatText) w)) = [] := by decide
  unfold fallbackAnalyze
  simp only [hp, hn, List.length_cons, List.length_nil, Analysis.mk.injEq]
  norm_num [jsMax, jsMin]

/-- C8 (confirmed): `fallbackAnalyze` is a pure function of the text
that lower-cases it, counts the fixed positive and negative word sets by
substring containment, clamps `5 + positiveCount - negativeCount` to
`[1, 10]` and returns the fixed sentinel tag list; it therefore returns
the same result on every call with the same text. -/
theorem c8_fallback_matches_spec (text : String) :
    fallbackAnalyze text = specFallbackAnalyze text := by
  unfold fallbackAnalyze specFallbackAnalyze
  simp only [List.countP_eq_length_filter, Analysis.mk.injEq]
  exact ⟨rfl, trivial⟩

/-- C1 (counterexample): with the external model failing, the create
pipeline persists the scenario entry with `moodScore 5` and tags
`["offline"]` — not the claimed `moodScore 6` with
`["offline-analysis"]`; `createEntry`'s internal fallback is a constant,
not the keyword heuristic. -/
theorem c1_create_fallback_counterexample :
    (createEntry 1 greatText (.error ()) [] 0 0).2 =
      [{ id := 0, userId := 1, text := greatText, moodScore := 5,
         tags := ["offline"], createdAt := 0 }]
    ∧ (5 : ℚ) ≠ 6 ∧ ("offline" : String) ≠ "offline-analysis" := by
  refine ⟨by decide, by norm_num, by decide⟩

/-- C1 (amended): when the external model call fails, create-entry
persists the entry with the constant fallback `moodScore 5` and tags
`["offline"]` for every input text; the keyword-counting heuristic (with
score `6` and tags `["offline-analysis"]` on the scenario text) is the
fallback of the standalone analyze endpoint, not of the create
pipeline. -/
theorem c1_create_fallback_amended (uid : Nat) (text : String) (db : List Entry)
    (newId : Nat) (now : Int) (h : text ≠ "") :
    (createEntry uid text (.error ()) db newId now).1.status = 201
  ∧ (∃ e, (createEntry uid text (.error ()) db newId now).1.body = some e
      ∧ e.moodScore = 5 ∧ e.tags = ["offline"] ∧ e.text = text ∧ e.userId = uid
      ∧ (createEntry uid text (.error ()) db newId now).2 = db ++ [e])
  ∧ aiAnalysisResult greatText (.error ()) =
      { moodScore := 6, tags := ["offline-analysis"] } := by
  refine ⟨by simp [createEntry, h],
    ⟨{ id := newId, userId := uid, text := text, moodScore := 5,
       tags := ["offline"], createdAt := now },
      by simp [createEntry, h, getAiAnalysis], rfl, rfl, rfl, rfl,
      by simp [createEntry, h, getAiAnalysis]⟩, ?_⟩
  show fallbackAnalyze greatText = _
  exact fallbackAnalyze_greatText

/-- Witness for C1 (amended) at the scenario input. -/
theorem c1_create_fallback_amended_witness :
    (createEntry 1 greatText (.error ()) [] 0 0).1.status = 201
  ∧ aiAnalysisResult greatText (.error ()) =
      { moodScore := 6, tags := ["offline-analysis"] } :=
  ⟨(c1_create_fallback_amended 1 greatText [] 0 0 (by decide)).1,
   (c1_create_fallback_amended 1 greatText [] 0 0 (by decide)).2.2⟩

/-- C3 (counterexample): a parsed model response with `moodScore 7.5`
passes the clamp unchanged, so the annotation's moodScore is a
non-integer; the code never rounds. -/
theorem c3_moodScore_counterexample :
    (aiAnalysisResult ("x") (.ok { moodScore := .val sevenHalf, tags := none })).moodScore
      = sevenHalf
  ∧ (getAiAnalysis (.ok { moodScore := .val sevenHalf, tags := none })).moodScore
      = sevenHalf
  ∧ sevenHalf.den ≠ 1 := by
  refine ⟨by decide, by decide, by decide⟩

/-- C3 (amended): for every text and every model outcome, the moodScore
produced by either annotation path lies in `[1, 10]` and is never null
(a numeric value always exists); it is moreover an integer whenever the
fallback runs or the parsed model value is itself an integer (or not a
finite number) — but a fractional parsed value stays fractional. -/
theorem c3_moodScore_range (text : String) (o : ModelOutcome) :
    (1 ≤ (aiAnalysisResult text o).moodScore ∧ (aiAnalysisResult text o).moodScore ≤ 10)
  ∧ (1 ≤ (getAiAnalysis o).moodScore ∧ (getAiAnalysis o).moodScore ≤ 10)
  ∧ (∀ u, o = .error u →
      (aiAnalysisResult text o).moodScore.den = 1 ∧ (getAiAnalysis o).moodScore.den = 1)
  ∧ (∀ r, o = .ok r → r.moodScore.intLike = true →
      (aiAnalysisResult text o).moodScore.den = 1 ∧ (getAiAnalysis o).moodScore.den = 1) := by
  refine ⟨?_, ?_, ?_, ?_⟩
  · cases o with
    | error u => exact fallbackAnalyze_range text
    | ok r => exact coerceMoodNum_range r.moodScore
  · cases o with
    | error u =>
      constructor
      · norm_num [getAiAnalysis]
      · norm_num [getAiAnalysis]
    | ok r => exact coerceMoodNum_range r.moodScore
  · rintro u rfl
    constructor
    · exact fallbackAnalyze_den text
    · norm_num [getAiAnalysis]
  · rintro r rfl hint
    exact ⟨coerceMoodNum_den r.moodScore hint, coerceMoodNum_den r.moodScore hint⟩

/-- Witness for C3 (amended): both fallback branches and an integral
model value give integral scores in range. -/
theorem c3_moodScore_range_witness :
    ((aiAnalysisResult ("x") (.error ())).moodScore.den = 1
      ∧ (getAiAnalysis (.error ())).moodScore.den = 1)
  ∧ ((aiAnalysisResult ("x") (.ok { moodScore := .val 8, tags := none })).moodScore.den = 1
      ∧ (getAiAnalysis (.ok { moodScore := .val 8, tags := none })).moodScore.den = 1) :=
  ⟨(c3_moodScore_range ("x") (.error ())).2.2.1 () rfl,
   (c3_moodScore_range ("x") (.ok { moodScore := .val 8, tags := none })).2.2.2
     { moodScore := .val 8, tags := none } rfl (by decide)⟩

/-- C7 (confirmed): with valid inputs, an external-model failure never
produces an error response: create-entry answers `201` and persists the
entry with the fallback annotation, the analyze endpoint answers `200`
with the keyword fallback, and semantic search answers `200` with an
empty array. -/
theorem c7_model_failure_absorbed (uid : Nat) (text q : String)
    (db entries : List Entry) (newId : Nat) (now : Int)
    (ht : text ≠ "") (hq : q ≠ "") (u : Unit) :
    (createEntry uid text (.error u) db newId now).1.status = 201
  ∧ (∃ e, (createEntry uid text (.error u) db newId now).1.body = some e
      ∧ e.moodScore = 5 ∧ e.tags = ["offline"]
      ∧ (createEntry uid text (.error u) db newId now).2 = db ++ [e])
  ∧ semanticSearch q (some entries) (.error u) = (200, some [])
  ∧ analyzeEntry text (.error u) = (200, some (fallbackAnalyze text)) := by
  refine ⟨by simp [createEntry, ht],
    ⟨{ id := newId, userId := uid, text := text, moodScore := 5,
       tags := ["offline"], createdAt := now },
      by simp [createEntry, ht, getAiAnalysis], rfl, rfl,
      by simp [createEntry, ht, getAiAnalysis]⟩,
    by simp [semanticSearch, hq], by simp [analyzeEntry, ht, aiAnalysisResult]⟩

/-- Witness for C7 at concrete inputs. -/
theorem c7_model_failure_absorbed_witness :
    (createEntry 1 ("hi") (.error ()) [] 0 0).1.status = 201
  ∧ semanticSearch ("walks") (some []) (.error ()) = (200, some []) :=
  ⟨(c7_model_failure_absorbed 1 ("hi") ("walks") [] [] 0 0 (by decide) (by decide) ()).1,
   (c7_model_failure_absorbed 1 ("hi") ("walks") [] [] 0 0 (by decide) (by decide) ()).2.2.1⟩

/-- C2 (counterexample): a caller distinct from any owner targeting a
nonexistent entry id receives `404`, not Forbidden (`401`/`403`): the
existence check runs before the ownership check. -/
theorem c2_ownership_counterexample :
    updateEntry 0 1 {} [] = (404, []) ∧ deleteEntry 0 1 [] = (404, [])
  ∧ (404 : Nat) ≠ 401 ∧ (404 : Nat) ≠ 403 := by
  refine ⟨by decide, by decide, by decide, by decide⟩

/-- C2 (amended): for every existing entry, a caller id different from
the owner id receives `401` from update and delete and the store is
unchanged; a nonexistent id yields `404` regardless of caller; the store
is mutated only when the caller is the owner. -/
theorem c2_owner_only (id caller : Nat) (b : UpdateBody) (db : List Entry) :
    (∀ e, findById id db = some e → e.userId ≠ caller →
        updateEntry id caller b db = (401, db) ∧ deleteEntry id caller db = (401, db))
  ∧ (findById id db = none →
        updateEntry id caller b db = (404, db) ∧ deleteEntry id caller db = (404, db))
  ∧ (∀ st db', updateEntry id caller b db = (st, db') → db' ≠ db →
        ∃ e, findById id db = some e ∧ e.userId = caller)
  ∧ (∀ st db', deleteEntry id caller db = (st, db') → db' ≠ db →
        ∃ e, findById id db = some e ∧ e.userId = caller) := by
  refine ⟨?_, ?_, ?_, ?_⟩
  · intro e he hne
    constructor
    · simp [updateEntry, he, hne]
    · simp [deleteEntry, he, hne]
  · intro he
    constructor
    · simp [updateEntry, he]
    · simp [deleteEntry, he]
  · intro st db' hu hne
    cases he : findById id db with
    | none =>
      simp [updateEntry, he] at hu
      exact absurd hu.2.symm hne
    | some e =>
      by_cases ho : e.userId ≠ caller
      · simp [updateEntry, he, ho] at hu
        exact absurd hu.2.symm hne
      · exact ⟨e, rfl, not_not.mp ho⟩
  · intro st db' hd hne
    cases he : findById id db with
    | none =>
      simp [deleteEntry, he] at hd
      exact absurd hd.2.symm hne
    | some e =>
      by_cases ho : e.userId ≠ caller
      · simp [deleteEntry, he, ho] at hd
        exact absurd hd.2.symm hne
      · exact ⟨e, rfl, not_not.mp ho⟩

/-- Witness for C2 (amended): user 1 hitting an entry owned by user 2
gets `401` from both operations and nothing changes. -/
theorem c2_owner_only_witness :
    updateEntry 7 1 {} [eOwner2] = (401, [eOwner2])
  ∧ deleteEntry 7 1 [eOwner2] = (401, [eOwner2]) :=
  (c2_owner_only 7 1 {} [eOwner2]).1 eOwner2 (by decide) (by decide)

/-- C10 (counterexample): updating an entry with an empty tags array
replaces the previous tags with the empty array — an empty array is
truthy in JavaScript, so it is not treated as "not provided". -/
theorem c10_empty_tags_counterexample :
    updateEntry 0 1 { tags := some ([] : List String) } [eTagA] =
      (200, [{ eTagA with tags := [] }])
  ∧ eTagA.tags = ["a"] ∧ ([] : List String) ≠ ["a"] := by
  refine ⟨by decide, by decide, by decide⟩

/-- C10 (amended): every persisted entry's text is non-empty and the
public operations preserve this: create rejects a missing or empty text
with `400` before annotating or persisting anything, and update treats
an empty-string text as not provided, keeping the previous text — so an
owner cannot blank out an entry's text. A provided tags array, however,
always replaces the tags, even when it is empty; only a missing or null
tags value keeps the previous tags. -/
theorem c10_text_invariant (uid : Nat) (text : String) (o : ModelOutcome)
    (db : List Entry) (newId : Nat) (now : Int) (b : UpdateBody)
    (id caller : Nat) (hdb : ∀ e ∈ db, e.text ≠ "") :
    (∀ o2 : ModelOutcome,
        createEntry uid ("") o2 db newId now = ({ status := 400, body := none }, db))
  ∧ (∀ e, e ∈ (createEntry uid text o db newId now).2 → e.text ≠ "")
  ∧ (∀ e, e ∈ (updateEntry id caller b db).2 → e.text ≠ "")
  ∧ (∀ e (b2 : UpdateBody), e.text ≠ "" → (applyUpdate e b2).text ≠ "")
  ∧ (∀ e (b2 : UpdateBody) ts, b2.tags = some ts → (applyUpdate e b2).tags = ts)
  ∧ (∀ e (b2 : UpdateBody), b2.tags = none → (applyUpdate e b2).tags = e.tags) := by
  have happly : ∀ (e : Entry) (b2 : UpdateBody), e.text ≠ "" → (applyUpdate e b2).text ≠ "" := by
    intro e b2 he
    show (if b2.text = "" then e.text else b2.text) ≠ ""
    split
    · exact he
    · assumption
  refine ⟨fun o2 => by simp [createEntry], ?_, ?_, happly, ?_, ?_⟩
  · intro e he
    by_cases ht : text = ""
    · rw [ht] at he
      simp [createEntry] at he
      exact hdb e he
    · simp [createEntry, ht] at he
      rcases he with he | he
      · exact hdb e he
      · rw [he]
        exact ht
  · intro e he
    cases hf : findById id db with
    | none =>
      simp [updateEntry, hf] at he
      exact hdb e he
    | some e0 =>
      by_cases ho : e0.userId ≠ caller
      · simp [updateEntry, hf, ho] at he
        exact hdb e he
      · simp [updateEntry, hf, ho] at he
        rcases he with ⟨x, hx, hxe⟩
        by_cases hid : x.id = id
        · rw [if_pos hid] at hxe
          rw [← hxe]
          exact happly x b (hdb x hx)
        · rw [if_neg hid] at hxe
          rw [← hxe]
          exact hdb x hx
  · intro e b2 ts hts
    show (match b2.tags with | some l => l | none => e.tags) = ts
    rw [hts]
  · intro e b2 hts
    show (match b2.tags with | some l => l | none => e.tags) = e.tags
    rw [hts]

/-- Witness for C10 (amended) on a one-entry store. -/
theorem c10_text_invariant_witness :
    createEntry 1 ("") (.error ()) [eTagA] 5 0 = ({ status := 400, body := none }, [eTagA])
  ∧ (∀ e, e ∈ (createEntry 1 ("hi") (.error ()) [eTagA] 5 0).2 → e.text ≠ "") :=
  ⟨(c10_text_invariant 1 ("hi") (.error ()) [eTagA] 5 0 {} 0 1
      (by decide)).1 (.error ()),
   (c10_text_invariant 1 ("hi") (.error ()) [eTagA] 5 0 {} 0 1
      (by decide)).2.1⟩

/-- C4 (confirmed): on the entry filter of the entries query, `happy`
keeps exactly the caller's entries with `moodScore ≥ 7`, `neutral`
exactly those with `5 ≤ moodScore < 7`, `sad` exactly those with
`moodScore < 5`, and `all` imposes no moodScore constraint. -/
theorem c4_mood_buckets (uid : Nat) (e : Entry) :
    entryMatches uid { mood := "happy" } e
      = some ((e.userId == uid) && decide (7 ≤ e.moodScore))
  ∧ entryMatches uid { mood := "neutral" } e
      = some ((e.userId == uid) && decide (5 ≤ e.moodScore ∧ e.moodScore < 7))
  ∧ entryMatches uid { mood := "sad" } e
      = some ((e.userId == uid) && decide (e.moodScore < 5))
  ∧ entryMatches uid { mood := "all" } e
      = some (e.userId == uid) := by
  refine ⟨?_, ?_, ?_, ?_⟩ <;>
    simp [entryMatches, moodMatches, dateMatches]

/-- `ceilDiv t l` is the least number of pages covering `t` records. -/
theorem ceilDiv_bounds (t l : Nat) (hl : 0 < l) :
    t ≤ ceilDiv t l * l ∧ ceilDiv t l * l < t + l := by
  unfold ceilDiv
  have hm : (t + l - 1) % l < l := Nat.mod_lt _ hl
  have hd : l * ((t + l - 1) / l) + (t + l - 1) % l = t + l - 1 := Nat.div_add_mod _ _
  have hc : (t + l - 1) / l * l = l * ((t + l - 1) / l) := Nat.mul_comm _ _
  rw [hc]
  generalize l * ((t + l - 1) / l) = k at hd ⊢
  omega

/-- `applySort` only reorders: it preserves length. -/
theorem length_applySort (s : String) (l : List Entry) :
    (applySort s l).length = l.length :=
  List.length_insertionSort _ l

/-- C5 (confirmed): pagination is applied after filtering and sorting by
skipping `(page-1)*limit` records and taking `limit`, defaults are
`page = 1` and `limit = 8`, the response reports the total matching
count and `ceil(total/limit)` pages; on a 21-record store with
`limit = 8` there are 3 pages, page 3 holds the remaining 5 records and
page 4 is empty without error. -/
theorem c5_pagination :
    (({} : QueryParams).page = 1 ∧ ({} : QueryParams).limit = 8)
  ∧ (∀ uid p db pd, getEntries uid p db = some pd →
      pd.page = p.page ∧ pd.limit = p.limit
      ∧ (∀ matched, filterOpt (entryMatches uid p) db = some matched →
          pd.entries = ((applySort p.sortBy matched).drop ((p.page - 1) * p.limit)).take p.limit
          ∧ pd.total = matched.length
          ∧ pd.pages = ceilDiv matched.length p.limit)
      ∧ pd.entries.length = min p.limit (pd.total - (p.page - 1) * p.limit)
      ∧ (0 < p.limit → pd.total ≤ pd.pages * p.limit ∧ pd.pages * p.limit < pd.total + p.limit))
  ∧ (getEntries 1 { page := 3 } db21).map (fun pd => (pd.pages, pd.entries.length))
      = some (3, 5)
  ∧ (getEntries 1 { page := 4 } db21).map (fun pd => (pd.pages, pd.entries.length))
      = some (3, 0) := by
  refine ⟨⟨rfl, rfl⟩, ?_, by decide, by decide⟩
  intro uid p db pd h
  cases hf : filterOpt (entryMatches uid p) db with
  | none => simp [getEntries, hf] at h
  | some matched =>
    simp only [getEntries, hf, Option.map_some'] at h
    injection h with h
    subst h
    refine ⟨rfl, rfl, ?_, ?_, ?_⟩
    · intro m hm
      injection hm with hm
      subst hm
      exact ⟨rfl, rfl, rfl⟩
    · simp [List.length_take, List.length_drop, length_applySort]
    · intro hl
      exact ceilDiv_bounds matched.length p.limit hl

/-- Witness for C5 at the empty store with default parameters. -/
theorem c5_pagination_witness :
    pdEmpty.entries.length
      = min ({} : QueryParams).limit (pdEmpty.total - (({} : QueryParams).page - 1) * ({} : QueryParams).limit) :=
  ((c5_pagination.2.1 1 {} [] pdEmpty (by decide))).2.2.2.1

/-- The sort comparator is total for every sort mode. -/
theorem sortLe_total (s : String) (a b : Entry) :
    sortLe s a b = true ∨ sortLe s b a = true := by
  unfold sortLe
  split_ifs <;> simp only [decide_eq_true_eq] <;> exact le_total _ _

/-- The sort comparator is transitive for every sort mode. -/
theorem sortLe_trans (s : String) (a b c : Entry)
    (hab : sortLe s a b = true) (hbc : sortLe s b c = true) :
    sortLe s a c = true := by
  unfold sortLe at hab hbc ⊢
  split_ifs at hab hbc ⊢ <;> simp only [decide_eq_true_eq] at hab hbc ⊢ <;>
    first
      | exact le_trans hab hbc
      | exact le_trans hbc hab

/-- The store's sort step yields a list sorted by the comparator. -/
theorem sorted_applySort (s : String) (l : List Entry) :
    (applySort s l).Pairwise (fun a b => sortLe s a b = true) := by
  haveI : IsTotal Entry (fun a b => sortLe s a b = true) := ⟨sortLe_total s⟩
  haveI : IsTrans Entry (fun a b => sortLe s a b = true) := ⟨sortLe_trans s⟩
  exact List.sorted_insertionSort _ l

/-- Every page returned by `getEntries` is pairwise ordered by any
relation implied by the active sort comparator: the page is a contiguous
window of the sorted, filtered list. -/
theorem pairwise_getEntries {R : Entry → Entry → Prop} (uid : Nat)
    (p : QueryParams) (db : List Entry) (pd : PageData)
    (h : getEntries uid p db = some pd)
    (himp : ∀ a b, sortLe p.sortBy a b = true → R a b) :
    pd.entries.Pairwise R := by
  cases hf : filterOpt (entryMatches uid p) db with
  | none => simp [getEntries, hf] at h
  | some matched =>
    simp only [getEntries, hf, Option.map_some'] at h
    injection h with h
    subst h
    have hsub : List.Sublist
        (((applySort p.sortBy matched).drop ((p.page - 1) * p.limit)).take p.limit)
        (applySort p.sortBy matched) :=
      (List.take_sublist _ _).trans (List.drop_sublist _ _)
    exact (((sorted_applySort p.sortBy matched).imp
      (fun hab => himp _ _ hab)).sublist hsub)

/-- C6 (confirmed): the page returned by the entries query is ordered
before pagination according to `sortBy`: `latest` (the default)
non-increasing in `createdAt`, `oldest` non-decreasing in `createdAt`,
`highest` non-increasing in `moodScore`, `lowest` non-decreasing in
`moodScore`. -/
theorem c6_sorting (uid : Nat) (p : QueryParams) (db : List Entry)
    (pd : PageData) (h : getEntries uid p db = some pd) :
    (p.sortBy = "latest" → pd.entries.Pairwise (fun a b => b.createdAt ≤ a.createdAt))
  ∧ (p.sortBy = "oldest" → pd.entries.Pairwise (fun a b => a.createdAt ≤ b.createdAt))
  ∧ (p.sortBy = "highest" → pd.entries.Pairwise (fun a b => b.moodScore ≤ a.moodScore))
  ∧ (p.sortBy = "lowest" → pd.entries.Pairwise (fun a b => a.moodScore ≤ b.moodScore))
  ∧ ({} : QueryParams).sortBy = "latest" := by
  refine ⟨?_, ?_, ?_, ?_, rfl⟩ <;>
    intro hs <;>
    refine pairwise_getEntries uid p db pd h ?_ <;>
    intro a b hab <;>
    rw [hs] at hab <;>
    simp [sortLe] at hab <;>
    exact hab

/-- Witness for C6: on a two-entry store with increasing timestamps, the
default page lists the newer entry first. -/
theorem c6_sorting_witness :
    pdTwo.entries.Pairwise (fun a b => b.createdAt ≤ a.createdAt) :=
  (c6_sorting 1 {} dbTwo pdTwo (by decide)).1 rfl

/-- A term free of metacharacters compiles to its literal tokens. -/
theorem compileRegex_lits (t : List Char) (h : ∀ c ∈ t, isRegexMeta c = false) :
    compileRegex t = some (t.map RTok.lit) := by
  induction t with
  | nil => rfl
  | cons c t ih =>
    have hc : isRegexMeta c = false := h c (by simp)
    have hdot : ¬c = '.' := by
      intro hcd
      rw [hcd] at hc
      simp [isRegexMeta] at hc
    simp [compileRegex, hdot, hc, ih (fun x hx => h x (by simp [hx]))]

/-- On literal tokens, anchored matching is case-folded prefix
testing. -/
theorem regexAccept_lits (t : List Char) :
    ∀ s, regexAccept (t.map RTok.lit) s
      = (t.map Char.toLower).isPrefixOf (s.map Char.toLower) := by
  induction t with
  | nil =>
    intro s
    simp [regexAccept, List.isPrefixOf]
  | cons c t ih =>
    intro s
    cases s with
    | nil => simp [regexAccept, List.isPrefixOf]
    | cons d s => simp [regexAccept, rtokMatch, List.isPrefixOf, ih s]

/-- On literal tokens, unanchored searching is case-folded substring
containment. -/
theorem regexSearch_lits (t : List Char) :
    ∀ s, regexSearch (t.map RTok.lit) s
      = containsSubL (t.map Char.toLower) (s.map Char.toLower) := by
  intro s
  induction s with
  | nil =>
    cases t with
    | nil => simp [regexSearch, regexAccept, containsSubL]
    | cons c t => simp [regexSearch, regexAccept, containsSubL, List.isPrefixOf]
  | cons c s ih =>
    simp [regexSearch, containsSubL, regexAccept_lits, ih]

/-- C9 (counterexample): the search term `.` — which contains no letter
of `abc` — matches the entry with text `abc`, because the filter hands
the term to the store as a regular expression, where `.` matches any
character; substring containment says no match. -/
theorem c9_search_regex_counterexample :
    entryMatches 1 { search := "." } eAbc = some true
  ∧ ciContainsStr (".") eAbc.text = false
  ∧ eAbc.tags.any (fun t => ciContainsStr (".") t) = false := by
  refine ⟨by decide, by decide, by decide⟩

/-- C9 (amended): for every non-empty search term containing no regex
metacharacter, the keyword filter of the entries query matches an entry
iff the entry text contains the term as a case-insensitive substring or
some tag contains the term as a case-insensitive substring (and the
caller owns the entry); a term with metacharacters is instead
interpreted as a regular expression. -/
theorem c9_keyword_filter (uid : Nat) (term : String) (e : Entry)
    (h1 : term ≠ "") (h2 : ∀ c ∈ term.data, isRegexMeta c = false) :
    entryMatches uid { search := term } e =
      some ((e.userId == uid) &&
        (ciContainsStr term e.text || e.tags.any (fun t => ciContainsStr term t))) := by
  have hcompile := compileRegex_lits term.data h2
  simp [entryMatches, dateMatches, moodMatches, h1, searchMatchesE, hcompile,
    regexSearch_lits, ciContainsStr]

/-- Witness for C9 at a concrete metacharacter-free term. -/
theorem c9_keyword_filter_witness :
    entryMatches 1 { search := "bc" } eAbc =
      some ((eAbc.userId == 1) &&
        (ciContainsStr ("bc") eAbc.text
          || eAbc.tags.any (fun t => ciContainsStr ("bc") t))) :=
  c9_keyword_filter 1 ("bc") eAbc (by decide) (by decide)
